import Mathlib

/-!
Shallow embedding of the `ollama-runpod` deployment utility
(`src/deploy_pod.py` and `src/runpod_rest_client.py`) and proofs about it.

Python strings are modelled as Lean `String` (a structure over `List Char`),
with the handful of string primitives the source uses re-implemented as
structurally recursive list functions so that every definition evaluates in
the kernel.  Python `int` is modelled as `Int`, `None`-able strings as
`Option String`, and Python truthiness of such values as `pyTruthy`.
-/

namespace OllamaRunpod

/-- Python truthiness of an optional string: `None` and `""` are falsy. -/
def pyTruthy : Option String → Bool
  | none => false
  | some s => !(s == "")

/-- Characters stripped by Python `str.strip()` (ASCII whitespace; the inputs
of this program are ASCII, so the extra Unicode spaces Python also strips do
not matter here). -/
def isSpaceChar (c : Char) : Bool :=
  c == ' ' || c == '\t' || c == '\n' || c == '\r' || c == '\x0b' || c == '\x0c'

/-- Python `str.strip()`: drop leading and trailing whitespace. -/
def pyStrip (s : String) : String :=
  String.mk (((s.toList.dropWhile isSpaceChar).reverse.dropWhile isSpaceChar).reverse)

/-- `s` starts with `pat` (Python `str.startswith`). -/
def listStarts : List Char → List Char → Bool
  | _, [] => true
  | [], _ :: _ => false
  | c :: cs, p :: ps => c == p && listStarts cs ps

/-- String wrapper for `listStarts`. -/
def strStarts (s pat : String) : Bool :=
  listStarts s.toList pat.toList

/-- `pat` occurs as a contiguous substring of `s` (Python `pat in s`). -/
def listHasSub : List Char → List Char → Bool
  | [], pat => pat.isEmpty
  | c :: rest, pat => listStarts (c :: rest) pat || listHasSub rest pat

/-- String wrapper for `listHasSub`. -/
def strContainsSub (s pat : String) : Bool :=
  listHasSub s.toList pat.toList

/-- Python `line.split('=', 1)` when `'=' in line`: the part before the first
`'='` and the remainder after it. -/
def splitFirstEq : List Char → List Char × List Char
  | [] => ([], [])
  | c :: rest =>
    if c == '=' then ([], rest)
    else
      let p := splitFirstEq rest
      (c :: p.1, p.2)

/-- Python `dict` insertion: an existing key keeps its position and gets the
new value, a fresh key is appended at the end. -/
def dictUpsert : List (String × String) → String → String → List (String × String)
  | [], k, v => [(k, v)]
  | (k0, v0) :: rest, k, v =>
    if k0 == k then (k, v) :: rest
    else (k0, v0) :: dictUpsert rest k v

/-- One iteration of the `for line in f` loop of `load_env_file`
(`deploy_pod.py` lines 301-307).  The accumulator carries the env dict and
the list of lines printed so far; no branch of the loop body prints, the
only print of `load_env_file` is in its file-level `except` clause, which a
successfully-read line list never reaches. -/
def envStep (acc : List (String × String) × List String) (line : String) :
    List (String × String) × List String :=
  let l := pyStrip line
  if l == "" || strStarts l "#" then acc
  else if l.toList.contains '=' then
    let p := splitFirstEq l.toList
    (dictUpsert acc.1 (pyStrip (String.mk p.1)) (pyStrip (String.mk p.2)), acc.2)
  else acc

/-- `load_env_file` (`deploy_pod.py` lines 293-311) on the lines of an
existing file, returning the parsed variables together with the lines the
loader printed while parsing. -/
def loadEnvFileTrace (lines : List String) : List (String × String) × List String :=
  lines.foldl envStep ([], [])

/-- The env dict returned by `load_env_file`. -/
def loadEnvFile (lines : List String) : List (String × String) :=
  (loadEnvFileTrace lines).1

/-- A line the loader actually parses: non-blank after stripping, not a
comment, and containing an `'='`. -/
def wellFormedLine (line : String) : Bool :=
  let l := pyStrip line
  !(l == "") && !(strStarts l "#") && l.toList.contains '='

/-- Python `dict` lookup `env_vars[k]` guarded by `k in env_vars`. -/
def lookupEnv (env : List (String × String)) (k : String) : Option String :=
  match env.find? (fun kv => kv.1 == k) with
  | some kv => some kv.2
  | none => none

/-- The parsed command-line arguments of `deploy_pod.py` (lines 429-463).
Optional flags (`argparse` default `None`) are `Option String`. -/
structure Args where
  api_key : Option String
  gpu_type : String
  name : String
  timeout : Int
  container_disk_size_gb : Int
  volume_size_gb : Int
  min_vcpu : Int
  min_memory_gb : Int
  image : String
  env_file : Option String
  preload_models : Option String
  log_level : String
  ollama_host : String
deriving DecidableEq

/-- The `argparse` defaults of `parse_arguments`. -/
def argsDefault : Args :=
  { api_key := none
    gpu_type := "NVIDIA RTX A5000"
    name := "Ollama-Pod"
    timeout := 60
    container_disk_size_gb := 5
    volume_size_gb := 50
    min_vcpu := 2
    min_memory_gb := 15
    image := "runpod/pytorch:latest"
    env_file := none
    preload_models := none
    log_level := "INFO"
    ollama_host := "0.0.0.0" }

/-- One `{"key": ..., "value": ...}` entry of the `env` list. -/
structure EnvVar where
  key : String
  value : String
deriving DecidableEq

/-- The dictionary returned by `create_pod_config` (lines 365-377). -/
structure PodConfig where
  gpuCount : Nat
  volumeInGb : Int
  containerDiskInGb : Int
  minVcpu : Int
  minMemoryInGb : Int
  gpuTypeId : String
  containerImageName : String
  env : List EnvVar
  ports : String
  volumeMountPath : String
  name : String
deriving DecidableEq

/-- The reserved keys skipped when merging file variables
(`deploy_pod.py` line 347). -/
def reservedKeys : List String :=
  ["OLLAMA_HOST", "INACTIVITY_TIMEOUT", "RUNPOD_API_KEY", "LOG_LEVEL", "PRELOAD_MODELS"]

/-- The exception list of GPU identifiers never given the vendor prefix
(`deploy_pod.py` line 359). -/
def gpuExceptions : List String := ["A100", "A40", "V100"]

/-- GPU type normalization of `create_pod_config` (lines 354-362). -/
def normalizeGpuType (g : String) : String :=
  if strContainsSub g "RTX 6000 Ada" && !(strContainsSub g "Generation") then
    "NVIDIA RTX 6000 Ada Generation"
  else if !(strStarts g "NVIDIA ") && !(gpuExceptions.contains g) then
    "NVIDIA " ++ g
  else g

/-- The `env` list built by `create_pod_config` (lines 316-352): four
required entries from flags, `PRELOAD_MODELS` when the flag is truthy, then
the non-reserved file variables appended in file order.  In `main` the
`args.api_key` field is always a string by the time `create_pod_config`
runs (line 527), so `getD ""` never actually fires. -/
def configEnv (args : Args) (fileLines : List String) : List EnvVar :=
  let base : List EnvVar :=
    [⟨"OLLAMA_HOST", args.ollama_host⟩,
     ⟨"INACTIVITY_TIMEOUT", toString args.timeout⟩,
     ⟨"RUNPOD_API_KEY", args.api_key.getD ""⟩,
     ⟨"LOG_LEVEL", args.log_level⟩]
  let base2 :=
    if pyTruthy args.preload_models then
      base ++ [⟨"PRELOAD_MODELS", args.preload_models.getD ""⟩]
    else base
  if pyTruthy args.env_file then
    base2 ++ (loadEnvFile fileLines).filterMap
      (fun kv => if reservedKeys.contains kv.1 then none else some ⟨kv.1, kv.2⟩)
  else base2

/-- `create_pod_config` (`deploy_pod.py` lines 313-377); the lines of the
env file (empty when the file is absent) are passed explicitly. -/
def createPodConfig (args : Args) (fileLines : List String) : PodConfig :=
  { gpuCount := 1
    volumeInGb := args.volume_size_gb
    containerDiskInGb := args.container_disk_size_gb
    minVcpu := args.min_vcpu
    minMemoryInGb := args.min_memory_gb
    gpuTypeId := normalizeGpuType args.gpu_type
    containerImageName := args.image
    env := configEnv args fileLines
    ports := "11434/http"
    volumeMountPath := "/workspace"
    name := args.name }

/-- The web-interface request body built by `deploy_pod_web_format`
(`deploy_pod.py` lines 128-139). -/
structure WebBody where
  containerDiskSize : Int
  env : List EnvVar
  gpuCount : Nat
  gpuTypeId : String
  imageName : String
  name : String
  ports : String
  volumeSize : Int
  volumeMountPath : String
deriving DecidableEq

/-- The `web_config` mapping of `deploy_pod_web_format` (lines 128-139). -/
def webConfigOf (c : PodConfig) : WebBody :=
  { containerDiskSize := c.containerDiskInGb
    env := c.env
    gpuCount := c.gpuCount
    gpuTypeId := c.gpuTypeId
    imageName := c.containerImageName
    name := c.name
    ports := c.ports
    volumeSize := c.volumeInGb
    volumeMountPath := c.volumeMountPath }

/-! ### Helper lemmas about the env-file loader and the config env list -/

/-- A line the loader does not parse leaves the loop accumulator unchanged. -/
theorem envStep_skip (acc : List (String × String) × List String) (line : String)
    (h : wellFormedLine line = false) : envStep acc line = acc := by
  unfold envStep
  simp only [wellFormedLine] at h
  cases e1 : (pyStrip line == "") with
  | true => simp [e1]
  | false =>
    cases e2 : strStarts (pyStrip line) "#" with
    | true => simp [e1, e2]
    | false =>
      cases e3 : (pyStrip line).toList.contains '=' with
      | true => rw [e1, e2, e3] at h; simp at h
      | false => simp only [e1, e2, e3]; simp

/-- Folding the loader's loop over a line list is the same as folding it over
only the well-formed lines. -/
theorem foldl_envStep_filter (L : List String) :
    ∀ acc, L.foldl envStep acc = (L.filter wellFormedLine).foldl envStep acc := by
  induction L with
  | nil => intro acc; rfl
  | cons a t ih =>
    intro acc
    cases ha : wellFormedLine a with
    | true => simp only [List.filter_cons, ha, if_pos, List.foldl_cons]; exact ih _
    | false =>
      simp only [List.filter_cons, ha, List.foldl_cons, envStep_skip acc a ha]
      simpa using ih acc

/-- The loader's loop never prints: the printed-output component of the
accumulator is left untouched by every line. -/
theorem foldl_envStep_snd (L : List String) :
    ∀ acc, (L.foldl envStep acc).2 = acc.2 := by
  induction L with
  | nil => intro acc; rfl
  | cons a t ih =>
    intro acc
    rw [List.foldl_cons, ih]
    simp only [envStep]
    split
    · rfl
    · split <;> rfl

/-- Every env entry taken from the file has a key outside the reserved set. -/
theorem mem_file_part_not_reserved {kv : EnvVar} {L : List String}
    (h : kv ∈ (loadEnvFile L).filterMap
      (fun kvp => if reservedKeys.contains kvp.1 then none
                  else some (⟨kvp.1, kvp.2⟩ : EnvVar))) :
    reservedKeys.contains kv.key = false := by
  rcases List.mem_filterMap.mp h with ⟨kvp, _, hif⟩
  cases hc : reservedKeys.contains kvp.1 with
  | true => rw [hc] at hif; simp at hif
  | false =>
    rw [hc] at hif
    simp at hif
    subst hif
    exact hc

/-! ### Claims about the configuration builder and the env-file loader -/

/-- Claim C1: for every env-file input and every ordering of its lines, the
five reserved keys `OLLAMA_HOST`, `INACTIVITY_TIMEOUT`, `RUNPOD_API_KEY`,
`LOG_LEVEL` and `PRELOAD_MODELS` in the built pod configuration keep the
values set from flags: any env entry of the built configuration carrying a
reserved key holds the flag-derived value, never a value read from the
file. -/
theorem claim_C1 (args : Args) (fileLines : List String) (kv : EnvVar)
    (hmem : kv ∈ (createPodConfig args fileLines).env) :
    (kv.key = "OLLAMA_HOST" → kv.value = args.ollama_host) ∧
    (kv.key = "INACTIVITY_TIMEOUT" → kv.value = toString args.timeout) ∧
    (kv.key = "RUNPOD_API_KEY" → kv.value = args.api_key.getD "") ∧
    (kv.key = "LOG_LEVEL" → kv.value = args.log_level) ∧
    (kv.key = "PRELOAD_MODELS" →
      pyTruthy args.preload_models = true ∧ kv.value = args.preload_models.getD "") := by
  have hmem2 : kv ∈ configEnv args fileLines := hmem
  unfold configEnv at hmem2
  cases hp : pyTruthy args.preload_models with
  | true =>
    cases he : pyTruthy args.env_file with
    | true =>
      rw [hp, he] at hmem2
      simp only [if_pos] at hmem2
      rcases List.mem_append.mp hmem2 with hbase | hfile
      · rcases List.mem_append.mp hbase with hb | hpm
        · simp only [List.mem_cons, List.mem_singleton] at hb
          rcases hb with rfl | rfl | rfl | h4
          · simp
          · simp
          · simp
          · simp at h4; subst h4; simp
        · simp only [List.mem_singleton] at hpm
          subst hpm; simp [hp]
      · have hnr := mem_file_part_not_reserved hfile
        simp only [reservedKeys] at hnr
        simp at hnr
        exact ⟨fun h => absurd h hnr.1, fun h => absurd h hnr.2.1,
          fun h => absurd h hnr.2.2.1, fun h => absurd h hnr.2.2.2.1,
          fun h => absurd h hnr.2.2.2.2⟩
    | false =>
      rw [hp, he] at hmem2
      simp only [Bool.false_eq_true, if_false, if_pos] at hmem2
      rcases List.mem_append.mp hmem2 with hb | hpm
      · simp only [List.mem_cons, List.mem_singleton] at hb
        rcases hb with rfl | rfl | rfl | h4
        · simp
        · simp
        · simp
        · simp at h4; subst h4; simp
      · simp only [List.mem_singleton] at hpm
        subst hpm; simp [hp]
  | false =>
    cases he : pyTruthy args.env_file with
    | true =>
      rw [hp, he] at hmem2
      simp only [Bool.false_eq_true, if_false, if_pos] at hmem2
      rcases List.mem_append.mp hmem2 with hb | hfile
      · simp only [List.mem_cons, List.mem_singleton] at hb
        rcases hb with rfl | rfl | rfl | h4
        · simp
        · simp
        · simp
        · simp at h4; subst h4; simp
      · have hnr := mem_file_part_not_reserved hfile
        simp only [reservedKeys] at hnr
        simp at hnr
        exact ⟨fun h => absurd h hnr.1, fun h => absurd h hnr.2.1,
          fun h => absurd h hnr.2.2.1, fun h => absurd h hnr.2.2.2.1,
          fun h => absurd h hnr.2.2.2.2⟩
    | false =>
      rw [hp, he] at hmem2
      simp only [Bool.false_eq_true, if_false] at hmem2
      simp only [List.mem_cons, List.mem_singleton] at hmem2
      rcases hmem2 with rfl | rfl | rfl | h4
      · simp
      · simp
      · simp
      · simp at h4; subst h4; simp

/-- Arguments for the C1 witness: flags plus an env file that tries to
override `OLLAMA_HOST`. -/
def argsC1 : Args :=
  { argsDefault with api_key := some "rpa_test", env_file := some ".env" }

/-- Witness for claim C1: a config built from an env file that tries to
override `OLLAMA_HOST` still carries the flag value `"0.0.0.0"` for that
key. -/
theorem claim_C1_witness :
    EnvVar.mk "OLLAMA_HOST" "0.0.0.0" ∈ (createPodConfig argsC1 ["OLLAMA_HOST=evil"]).env ∧
    (EnvVar.mk "OLLAMA_HOST" "0.0.0.0").value = argsC1.ollama_host :=
  ⟨by decide,
   (claim_C1 argsC1 ["OLLAMA_HOST=evil"] ⟨"OLLAMA_HOST", "0.0.0.0"⟩ (by decide)).1 rfl⟩

/-- Claim C2 counterexample: the claim states that every identifier already
starting with `"NVIDIA "` passes through unchanged, but `"NVIDIA RTX 6000
Ada"` starts with `"NVIDIA "` and is rewritten to `"NVIDIA RTX 6000 Ada
Generation"` by the first normalization rule, so the claim as stated is
false at this input. -/
theorem claim_C2_counterexample :
    strStarts "NVIDIA RTX 6000 Ada" "NVIDIA " = true ∧
    normalizeGpuType "NVIDIA RTX 6000 Ada" ≠ "NVIDIA RTX 6000 Ada" := by decide

/-- Claim C2 amended: the three normalization clauses hold once the second
and third are restricted to identifiers not matching the first rule (the
rules are tried in order): (1) an identifier containing `"RTX 6000 Ada"`
but not `"Generation"` maps to `"NVIDIA RTX 6000 Ada Generation"`;
otherwise (2) an identifier neither starting with `"NVIDIA "` nor in the
exception list gets the `"NVIDIA "` prefix; otherwise (3) the identifier
passes through unchanged. -/
theorem claim_C2_amended (g : String) :
    (strContainsSub g "RTX 6000 Ada" = true → strContainsSub g "Generation" = false →
      normalizeGpuType g = "NVIDIA RTX 6000 Ada Generation") ∧
    ((strContainsSub g "RTX 6000 Ada" = false ∨ strContainsSub g "Generation" = true) →
      strStarts g "NVIDIA " = false → gpuExceptions.contains g = false →
      normalizeGpuType g = "NVIDIA " ++ g) ∧
    ((strContainsSub g "RTX 6000 Ada" = false ∨ strContainsSub g "Generation" = true) →
      (strStarts g "NVIDIA " = true ∨ gpuExceptions.contains g = true) →
      normalizeGpuType g = g) := by
  refine ⟨?_, ?_, ?_⟩
  · intro h1 h2
    unfold normalizeGpuType
    rw [h1, h2]
    rfl
  · intro hn hs hm
    unfold normalizeGpuType
    have hc1 : (strContainsSub g "RTX 6000 Ada" && !strContainsSub g "Generation") = false := by
      rcases hn with h | h <;> simp [h]
    rw [hc1, hs, hm]
    rfl
  · intro hn hsm
    unfold normalizeGpuType
    have hc1 : (strContainsSub g "RTX 6000 Ada" && !strContainsSub g "Generation") = false := by
      rcases hn with h | h <;> simp [h]
    have hc2 : (!strStarts g "NVIDIA " && !gpuExceptions.contains g) = false := by
      rcases hsm with h | h <;> rw [h] <;> simp
    rw [hc1, hc2]
    rfl

/-- Witness for the amended claim C2, covering each of the three clauses at
a concrete identifier. -/
theorem claim_C2_amended_witness :
    normalizeGpuType "RTX 6000 Ada" = "NVIDIA RTX 6000 Ada Generation" ∧
    normalizeGpuType "H100" = "NVIDIA H100" ∧
    normalizeGpuType "A40" = "A40" :=
  ⟨(claim_C2_amended "RTX 6000 Ada").1 (by decide) (by decide),
   (claim_C2_amended "H100").2.1 (Or.inl (by decide)) (by decide) (by decide),
   (claim_C2_amended "A40").2.2 (Or.inl (by decide)) (Or.inr (by decide))⟩

/-- The flags of the C3 scenario: `--api-key rpa_test --gpu-type A40
--timeout 120` with an (empty) env file, other flags at their `argparse`
defaults. -/
def argsC3 : Args :=
  { argsDefault with
    api_key := some "rpa_test"
    gpu_type := "A40"
    timeout := 120
    env_file := some "empty.env" }

/-- Claim C3 counterexample: `"A40"` is in the code's exception list
(`deploy_pod.py` line 359), so the built request body carries GPU type
`"A40"`, not the claimed `"NVIDIA A40"`. -/
theorem claim_C3_counterexample :
    (webConfigOf (createPodConfig argsC3 [])).gpuTypeId ≠ "NVIDIA A40" := by decide

/-- Claim C3 amended: for flags `--api-key rpa_test --gpu-type A40
--timeout 120` and an empty env file, the built request body contains the
env entry `INACTIVITY_TIMEOUT="120"` and the GPU-type field `"A40"`
(unchanged, because `A40` is in the exception list). -/
theorem claim_C3_amended :
    (webConfigOf (createPodConfig argsC3 [])).gpuTypeId = "A40" ∧
    EnvVar.mk "INACTIVITY_TIMEOUT" "120" ∈ (webConfigOf (createPodConfig argsC3 [])).env := by
  decide

/-- Claim C4 counterexample: the claim states each malformed line is skipped
"with a warning", but on the input `["NOEQUALS", "A=1"]` the loader skips
the `'='`-less line, parses the rest normally, and prints nothing at all:
the per-line skip is silent (the loader's only warning is printed when
reading the file itself raises, which line input that was read successfully
never triggers). -/
theorem claim_C4_counterexample :
    (loadEnvFileTrace ["NOEQUALS", "A=1"]).1 = [("A", "1")] ∧
    (loadEnvFileTrace ["NOEQUALS", "A=1"]).2 = [] := by decide

/-- Claim C4 amended: for every env-file input, every malformed line — no
`'='`, blank after stripping, or starting with `'#'` — is silently skipped
(no warning is printed for it) and never causes the loader to fail, and
parsing the remaining well-formed lines proceeds exactly as if the
malformed lines were absent. -/
theorem claim_C4_amended (lines : List String) :
    loadEnvFile lines = loadEnvFile (lines.filter wellFormedLine) ∧
    (loadEnvFileTrace lines).2 = [] := by
  constructor
  · unfold loadEnvFile loadEnvFileTrace
    rw [foldl_envStep_filter]
  · exact foldl_envStep_snd lines ([], [])

/-- Arguments for the C10 witness: no `--preload-models` flag, env file
present. -/
def argsC10 : Args :=
  { argsDefault with api_key := some "rpa_test", env_file := some ".env" }

/-- Claim C10: when the `--preload-models` flag is not given (or empty, which
Python treats the same), a `PRELOAD_MODELS` line in the env file is dropped:
the built configuration contains no `PRELOAD_MODELS` env entry at all. -/
theorem claim_C10 (args : Args) (fileLines : List String)
    (henv : pyTruthy args.env_file = true)
    (_hfile : (lookupEnv (loadEnvFile fileLines) "PRELOAD_MODELS").isSome = true)
    (hflag : pyTruthy args.preload_models = false) :
    ∀ kv ∈ (createPodConfig args fileLines).env, kv.key ≠ "PRELOAD_MODELS" := by
  intro kv hmem
  have hmem2 : kv ∈ configEnv args fileLines := hmem
  unfold configEnv at hmem2
  rw [hflag, henv] at hmem2
  simp only [Bool.false_eq_true, if_false, if_pos] at hmem2
  rcases List.mem_append.mp hmem2 with hb | hfilepart
  · simp only [List.mem_cons, List.mem_singleton] at hb
    rcases hb with rfl | rfl | rfl | h4
    · simp
    · simp
    · simp
    · simp at h4; subst h4; simp
  · have hnr := mem_file_part_not_reserved hfilepart
    simp only [reservedKeys] at hnr
    simp at hnr
    exact hnr.2.2.2.2

/-- Witness for claim C10: with `--preload-models` absent and an env file
containing `PRELOAD_MODELS=mistral`, the entry is not in the built
configuration. -/
theorem claim_C10_witness :
    EnvVar.mk "PRELOAD_MODELS" "mistral" ∉
      (createPodConfig argsC10 ["PRELOAD_MODELS=mistral"]).env :=
  fun h =>
    claim_C10 argsC10 ["PRELOAD_MODELS=mistral"] (by decide) (by decide) (by decide)
      ⟨"PRELOAD_MODELS", "mistral"⟩ h rfl

/-! ### The HTTP clients and the `main` control flow

The remote side is modelled as an oracle: each request the program can make
has its response (HTTP status plus optionally-parseable JSON body) fixed in
advance in a world record.  `sys.exit(1)` is `SystemExit`, which Python's
`except Exception` clauses do not catch, so an exit raised inside `query`
propagates out of every attempt. -/

/-- An HTTP response: status code and the parsed JSON body, `none` when the
body is not valid JSON (so `response.json()` raises). -/
structure HttpResp (α : Type) where
  status : Nat
  body : Option α
deriving DecidableEq

/-- The parts of the GraphQL verification response body that
`RunPodClient.verify_api_key` inspects: whether `"errors"` is present, and
whether `data.myself` is present and truthy. -/
structure VerifyBody where
  hasErrors : Bool
  myselfTruthy : Bool
deriving DecidableEq

/-- `RunPodClient.verify_api_key` (`deploy_pod.py` lines 31-67): `False` on
a non-200 status, on an unparseable body (the `json()` call raises and the
`except` clause returns `False`), or on an `errors` entry; `True` only when
`data.myself` is present and truthy. -/
def verifyApiKey (r : HttpResp VerifyBody) : Bool :=
  if r.status ≠ 200 then false
  else
    match r.body with
    | none => false
    | some b =>
      if b.hasErrors then false
      else if b.myselfTruthy then true
      else false

/-- `RunPodRestClient.verify_api_key` (`runpod_rest_client.py` lines 23-42):
any 200 response is treated as a valid key; the body is never read. -/
def restVerifyApiKey {α : Type} (r : HttpResp α) : Bool :=
  if r.status ≠ 200 then false
  else true

/-- The mutation's entry under `"data"` in a GraphQL deployment response:
`absent` when `"data"` or the mutation's key is missing, `nullValue` when
the key is present but its value is JSON null, `pod p` when it is a (truthy)
pod object.  The three cases must be kept apart: the web-format attempt
treats `absent` and `nullValue` alike (both end up as `None`), but attempts
1-3 test only key membership and so *return* a null value, ending the
chain. -/
inductive GqlPayload where
  | absent
  | nullValue
  | pod (p : String)
deriving DecidableEq

/-- The parts of a GraphQL deployment response body the fallback logic
inspects: whether `"errors"` is present, and the mutation's payload under
`"data"`. -/
structure GqlDeployBody where
  hasErrors : Bool
  payload : GqlPayload
deriving DecidableEq

/-- Outcome of `RunPodClient.query` (`deploy_pod.py` lines 69-101): a
non-200 status hits `raise_for_status` whose `RequestException` is caught
and turned into `sys.exit(1)`; an unparseable body makes `response.json()`
raise out of `query`; otherwise the parsed data is returned, errors
included. -/
inductive QueryOutcome where
  | exit1
  | raised
  | ok (b : GqlDeployBody)
deriving DecidableEq

/-- `RunPodClient.query` against a fixed response. -/
def runQuery (r : HttpResp GqlDeployBody) : QueryOutcome :=
  if r.status ≠ 200 then .exit1
  else
    match r.body with
    | none => .raised
    | some b => .ok b

/-- Result of the web-format candidate as seen by
`deploy_pod_multi_attempt`: a propagating `sys.exit(1)`, no pod — the
function returned `None` or a falsy value, so `if web_result:` fails and
the next candidate is tried — or a truthy pod payload. -/
inductive WebResult where
  | exit1
  | noPod
  | pod (p : String)
deriving DecidableEq

/-- Result of one of attempts 1-3 as seen by `deploy_pod_multi_attempt`: a
propagating `sys.exit(1)`, no pod (the attempt's condition failed and the
next candidate is tried), a returned null (the membership check passed but
the mutation's value is null, and that null is returned as the result of
`deploy_pod_multi_attempt` itself — the chain stops), or a pod payload. -/
inductive AttemptResult where
  | exit1
  | noPod
  | nullReturn
  | pod (p : String)
deriving DecidableEq

/-- `RunPodClient.deploy_pod_web_format` (`deploy_pod.py` lines 103-153):
on errors in the body it returns `None`; a missing `data.podDeployOnDemand`
raises a lookup error that the `except` clause turns into `None`; a null
`data.podDeployOnDemand` is returned but is falsy, so the caller's
`if web_result:` check (line 161) makes it equivalent to `None`; a
`sys.exit` from `query` propagates. -/
def deployPodWebFormat (r : HttpResp GqlDeployBody) : WebResult :=
  match runQuery r with
  | .exit1 => .exit1
  | .raised => .noPod
  | .ok b =>
    if b.hasErrors then .noPod
    else
      match b.payload with
      | .absent => .noPod
      | .nullValue => .noPod
      | .pod p => .pod p

/-- One of the `try`-blocks of attempts 1-3 of `deploy_pod_multi_attempt`
(lines 166-286): the condition at lines 202/244/281 requires no `errors`
entry, a `"data"` entry, and key *membership* of the mutation's name — it
does not test the value, so a present-but-null payload passes the
condition and the null is returned (`nullReturn`); any exception from the
`json()` call is caught and the attempt falls through; a `sys.exit` from
`query` propagates. -/
def gqlAttempt (r : HttpResp GqlDeployBody) : AttemptResult :=
  match runQuery r with
  | .exit1 => .exit1
  | .raised => .noPod
  | .ok b =>
    if b.hasErrors then .noPod
    else
      match b.payload with
      | .absent => .noPod
      | .nullValue => .nullReturn
      | .pod p => .pod p

/-- The four candidate request shapes, in the order
`deploy_pod_multi_attempt` tries them: the web-interface
`podDeployOnDemand` format, then `podGenerate`, then `podDeploy`, then the
plain `podDeployOnDemand` format. -/
inductive Shape where
  | web
  | gen
  | dep
  | od
deriving DecidableEq

/-- The oracle for one run of `deploy_pod_multi_attempt`: the response each
candidate shape would receive. -/
structure DeployWorld where
  web : HttpResp GqlDeployBody
  gen : HttpResp GqlDeployBody
  dep : HttpResp GqlDeployBody
  od : HttpResp GqlDeployBody
deriving DecidableEq

/-- How `deploy_pod_multi_attempt` ends: `exit1` is the `sys.exit(1)`
raised inside `query` on a transport-level failure, `allFailedExit1` is the
final `print("All deployment attempts failed"); sys.exit(1)` (lines
288-290), `nullResult` is the `return result["data"][...]` of attempts 1-3
returning a null payload (lines 204/246/283 when the key is present but its
value is null) — the chain stops and the caller receives `None` — and
`success p` returns the pod payload. -/
inductive DeployOutcome where
  | exit1
  | allFailedExit1
  | nullResult
  | success (p : String)
deriving DecidableEq

/-- `RunPodClient.deploy_pod_multi_attempt` (`deploy_pod.py` lines
155-290), also recording which candidate shapes were attempted, in order.
Each candidate is tried at most once and the chain stops at the first
success (or propagating exit). -/
def deployPodMultiAttempt (w : DeployWorld) : DeployOutcome × List Shape :=
  match deployPodWebFormat w.web with
  | .exit1 => (.exit1, [Shape.web])
  | .pod p => (.success p, [Shape.web])
  | .noPod =>
    match gqlAttempt w.gen with
    | .exit1 => (.exit1, [Shape.web, Shape.gen])
    | .nullReturn => (.nullResult, [Shape.web, Shape.gen])
    | .pod p => (.success p, [Shape.web, Shape.gen])
    | .noPod =>
      match gqlAttempt w.dep with
      | .exit1 => (.exit1, [Shape.web, Shape.gen, Shape.dep])
      | .nullReturn => (.nullResult, [Shape.web, Shape.gen, Shape.dep])
      | .pod p => (.success p, [Shape.web, Shape.gen, Shape.dep])
      | .noPod =>
        match gqlAttempt w.od with
        | .exit1 => (.exit1, [Shape.web, Shape.gen, Shape.dep, Shape.od])
        | .nullReturn => (.nullResult, [Shape.web, Shape.gen, Shape.dep, Shape.od])
        | .pod p => (.success p, [Shape.web, Shape.gen, Shape.dep, Shape.od])
        | .noPod => (.allFailedExit1, [Shape.web, Shape.gen, Shape.dep, Shape.od])

/-- A network request `main` can issue: the credential verification or one
deployment submission. -/
inductive NetCall where
  | verifyCall
  | deployCall (s : Shape)
deriving DecidableEq

/-- How the `main` process ends: `exited c` is `sys.exit(c)`, `cancelled`
is the plain `return` after a declined confirmation prompt (exit code 0),
`completed p` reaches `display_pod_info` with pod payload `p`, and
`crashed` is an unhandled exception escaping `main` — when
`deploy_pod_multi_attempt` returns a null pod, `display_pod_info` (line
542, outside the `try`) calls `pod.get` on `None`, and the resulting
`AttributeError` terminates the process with a traceback and a nonzero
exit status. -/
inductive Outcome where
  | exited (code : Nat)
  | cancelled
  | completed (p : String)
  | crashed
deriving DecidableEq

/-- The oracle and user input for one run of `main`: the verification
response, the deployment responses, and the answers to the two interactive
prompts (`true` = `y`/`yes`). -/
structure World where
  verify : HttpResp VerifyBody
  deployW : DeployWorld
  confirmKey : Bool
  confirmDeploy : Bool
deriving DecidableEq

/-- The credential-resolution head of `main` (`deploy_pod.py` lines
471-476): the flag value, or, when that is falsy and an env file is given,
the file's `RUNPOD_API_KEY` if present. -/
def resolveApiKey (args : Args) (fileLines : List String) : Option String :=
  if !(pyTruthy args.api_key) && pyTruthy args.env_file then
    match lookupEnv (loadEnvFile fileLines) "RUNPOD_API_KEY" with
    | some v => some v
    | none => args.api_key
  else args.api_key

/-- The tail of `main` after a non-empty stripped key `k` (lines 489-542):
the key-format prompt, the deployment confirmation prompt, the
verification call (exit 1 on failure), then `create_pod_config` — whose
result only feeds the deployment requests, so it does not appear in the
observable outcome — and `deploy_pod_multi_attempt`. -/
def mainAfterKey (w : World) (k : String) : Outcome × List NetCall :=
  if !(strStarts k "rpa_") && !w.confirmKey then (.cancelled, [])
  else if !w.confirmDeploy then (.cancelled, [])
  else if !(verifyApiKey w.verify) then (.exited 1, [NetCall.verifyCall])
  else
    match deployPodMultiAttempt w.deployW with
    | (.exit1, shapes) => (.exited 1, NetCall.verifyCall :: shapes.map NetCall.deployCall)
    | (.allFailedExit1, shapes) =>
      (.exited 1, NetCall.verifyCall :: shapes.map NetCall.deployCall)
    | (.nullResult, shapes) =>
      (.crashed, NetCall.verifyCall :: shapes.map NetCall.deployCall)
    | (.success p, shapes) =>
      (.completed p, NetCall.verifyCall :: shapes.map NetCall.deployCall)

/-- `main` (`deploy_pod.py` lines 465-542), returning how the process ends
together with the network requests issued, in order.  The first `if not
api_key` (line 479) catches `None` and the empty string; the second (line
485) catches a key that is empty after `strip()`. -/
def mainRun (args : Args) (fileLines : List String) (w : World) : Outcome × List NetCall :=
  match resolveApiKey args fileLines with
  | none => (.exited 1, [])
  | some s =>
    if s == "" then (.exited 1, [])
    else
      if pyStrip s == "" then (.exited 1, [])
      else mainAfterKey w (pyStrip s)

/-! ### Helper lemmas about the clients -/

/-- A non-200 verification response is never accepted. -/
theorem verifyApiKey_false_of_status {r : HttpResp VerifyBody} (h : r.status ≠ 200) :
    verifyApiKey r = false := by
  unfold verifyApiKey
  rw [if_pos h]

/-- A 200 web-format response with an `errors` entry, or whose mutation
payload is absent or null, yields no pod and the chain moves on. -/
theorem webFormat_noPod {b : GqlDeployBody}
    (h : b.hasErrors = true ∨ b.payload = GqlPayload.absent ∨
      b.payload = GqlPayload.nullValue) :
    deployPodWebFormat ⟨200, some b⟩ = WebResult.noPod := by
  unfold deployPodWebFormat runQuery
  rcases h with h | h | h
  · simp [h]
  · cases he : b.hasErrors with
    | true => simp [he]
    | false => simp [he, h]
  · cases he : b.hasErrors with
    | true => simp [he]
    | false => simp [he, h]

/-- A 200 web-format response with no `errors` entry and a non-null payload
yields that pod. -/
theorem webFormat_pod {b : GqlDeployBody} {p : String} (he : b.hasErrors = false)
    (hp : b.payload = GqlPayload.pod p) :
    deployPodWebFormat ⟨200, some b⟩ = WebResult.pod p := by
  unfold deployPodWebFormat runQuery
  simp [he, hp]

/-- A 200 fallback-mutation response with an `errors` entry or without the
mutation's key yields no pod and the chain moves on. -/
theorem gqlAttempt_noPod {b : GqlDeployBody}
    (h : b.hasErrors = true ∨ b.payload = GqlPayload.absent) :
    gqlAttempt ⟨200, some b⟩ = AttemptResult.noPod := by
  unfold gqlAttempt runQuery
  rcases h with h | h
  · simp [h]
  · cases he : b.hasErrors with
    | true => simp [he]
    | false => simp [he, h]

/-- A 200 fallback-mutation response with no `errors` entry and a non-null
payload yields that pod. -/
theorem gqlAttempt_pod {b : GqlDeployBody} {p : String} (he : b.hasErrors = false)
    (hp : b.payload = GqlPayload.pod p) :
    gqlAttempt ⟨200, some b⟩ = AttemptResult.pod p := by
  unfold gqlAttempt runQuery
  simp [he, hp]

/-- A 200 fallback-mutation response with no `errors` entry whose mutation
key is present but null passes the membership check, and the null value is
returned. -/
theorem gqlAttempt_nullReturn {b : GqlDeployBody} (he : b.hasErrors = false)
    (hp : b.payload = GqlPayload.nullValue) :
    gqlAttempt ⟨200, some b⟩ = AttemptResult.nullReturn := by
  unfold gqlAttempt runQuery
  simp [he, hp]

/-! ### Claims about the clients and the `main` control flow -/

/-- Claim C5: if the credential resolved from the flag or the env file is
empty after trimming whitespace, the process exits with code 1 before
issuing any network request. -/
theorem claim_C5 (args : Args) (fileLines : List String) (w : World)
    (h : pyStrip ((resolveApiKey args fileLines).getD "") = "") :
    mainRun args fileLines w = (Outcome.exited 1, []) := by
  unfold mainRun
  cases hk : resolveApiKey args fileLines with
  | none => rfl
  | some s =>
    rw [hk] at h
    simp only [Option.getD_some] at h
    dsimp only
    by_cases hs : (s == "") = true
    · rw [if_pos hs]
    · rw [if_neg hs, h]
      rfl

/-- Witness for claim C5: a whitespace-only `--api-key` value makes the
process exit 1 with no network calls, in any world. -/
theorem claim_C5_witness :
    mainRun { argsDefault with api_key := some "   " } []
      ⟨⟨200, some ⟨false, true⟩⟩, ⟨⟨200, none⟩, ⟨200, none⟩, ⟨200, none⟩, ⟨200, none⟩⟩,
        true, true⟩ = (Outcome.exited 1, []) :=
  claim_C5 { argsDefault with api_key := some "   " } [] _ (by decide)

/-- Claim C6: whenever the credential-verification request returns a
non-success HTTP status, the process exits with code 1 and no deployment
request is ever attempted. -/
theorem claim_C6 (args : Args) (fileLines : List String) (w : World)
    (hs : w.verify.status ≠ 200)
    (hv : NetCall.verifyCall ∈ (mainRun args fileLines w).2) :
    (mainRun args fileLines w).1 = Outcome.exited 1 ∧
    ∀ s, NetCall.deployCall s ∉ (mainRun args fileLines w).2 := by
  have hvf := verifyApiKey_false_of_status hs
  have hmain : mainRun args fileLines w = (Outcome.exited 1, [NetCall.verifyCall]) := by
    unfold mainRun at hv ⊢
    cases hk : resolveApiKey args fileLines with
    | none => rw [hk] at hv; simp at hv
    | some s =>
      rw [hk] at hv
      dsimp only at hv ⊢
      by_cases h1 : (s == "") = true
      · rw [if_pos h1] at hv; simp at hv
      · rw [if_neg h1] at hv ⊢
        by_cases h2 : (pyStrip s == "") = true
        · rw [if_pos h2] at hv; simp at hv
        · rw [if_neg h2] at hv ⊢
          unfold mainAfterKey at hv ⊢
          by_cases h3 : (!(strStarts (pyStrip s) "rpa_") && !w.confirmKey) = true
          · rw [if_pos h3] at hv; simp at hv
          · rw [if_neg h3] at hv ⊢
            by_cases h4 : (!w.confirmDeploy) = true
            · rw [if_pos h4] at hv; simp at hv
            · rw [if_neg h4, hvf]
              rfl
  rw [hmain]
  exact ⟨rfl, fun s h => by simp at h⟩

/-- Arguments for the C6 witness. -/
def argsC6 : Args := { argsDefault with api_key := some "rpa_test" }

/-- World for the C6 witness: the verification call answers HTTP 401; both
prompts are confirmed. -/
def worldC6 : World :=
  { verify := ⟨401, none⟩
    deployW := ⟨⟨200, none⟩, ⟨200, none⟩, ⟨200, none⟩, ⟨200, none⟩⟩
    confirmKey := true
    confirmDeploy := true }

/-- Witness for claim C6: with a 401 verification response the run exits 1
and issues no deployment request. -/
theorem claim_C6_witness :
    (mainRun argsC6 [] worldC6).1 = Outcome.exited 1 ∧
    NetCall.deployCall Shape.web ∉ (mainRun argsC6 [] worldC6).2 := by
  have h := claim_C6 argsC6 [] worldC6 (by decide) (by decide)
  exact ⟨h.1, h.2 Shape.web⟩

/-- World for the C7 counterexample. -/
def worldC7 : DeployWorld :=
  { web := ⟨200, some ⟨false, GqlPayload.absent⟩⟩
    gen := ⟨200, some ⟨false, GqlPayload.pod "pod-2"⟩⟩
    dep := ⟨200, some ⟨true, GqlPayload.absent⟩⟩
    od := ⟨200, some ⟨true, GqlPayload.absent⟩⟩ }

/-- Claim C7 counterexample: the claim states the first candidate whose
response contains no error is returned and the remaining candidates are
not attempted, but when the first (web-format) response contains no error
yet lacks the `data.podDeployOnDemand` payload, the lookup raises, the
`except` clause turns the attempt into `None`, and the second candidate is
attempted and returned instead. -/
theorem claim_C7_counterexample :
    worldC7.web = ⟨200, some ⟨false, GqlPayload.absent⟩⟩ ∧
    deployPodMultiAttempt worldC7 =
      (DeployOutcome.success "pod-2", [Shape.web, Shape.gen]) := by decide

/-- Claim C7 amended: deployment submission tries up to four structurally
different request shapes in one fixed, hardcoded order, each candidate at
most once.  A candidate whose (HTTP-200, parseable) response contains an
error, or whose mutation payload key is missing — or, for the web-format
candidate only, null — is abandoned and the next candidate tried.  The
chain stops at the first remaining candidate whose response has no error
and carries the mutation's key: a non-null payload is returned as the
result; for the three fallback mutations a present-but-null payload is
itself returned (a null result).  In either case the remaining candidates
are not attempted. -/
theorem claim_C7_amended (w : DeployWorld) (wb gb db ob : GqlDeployBody)
    (hw : w.web = ⟨200, some wb⟩) (hg : w.gen = ⟨200, some gb⟩)
    (hd : w.dep = ⟨200, some db⟩) (ho : w.od = ⟨200, some ob⟩) :
    (wb.hasErrors = false → ∀ p, wb.payload = GqlPayload.pod p →
      deployPodMultiAttempt w = (DeployOutcome.success p, [Shape.web])) ∧
    ((wb.hasErrors = true ∨ wb.payload = GqlPayload.absent ∨
        wb.payload = GqlPayload.nullValue) → gb.hasErrors = false →
      ∀ p, gb.payload = GqlPayload.pod p →
      deployPodMultiAttempt w = (DeployOutcome.success p, [Shape.web, Shape.gen])) ∧
    ((wb.hasErrors = true ∨ wb.payload = GqlPayload.absent ∨
        wb.payload = GqlPayload.nullValue) → gb.hasErrors = false →
      gb.payload = GqlPayload.nullValue →
      deployPodMultiAttempt w = (DeployOutcome.nullResult, [Shape.web, Shape.gen])) ∧
    ((wb.hasErrors = true ∨ wb.payload = GqlPayload.absent ∨
        wb.payload = GqlPayload.nullValue) →
      (gb.hasErrors = true ∨ gb.payload = GqlPayload.absent) → db.hasErrors = false →
      ∀ p, db.payload = GqlPayload.pod p →
      deployPodMultiAttempt w =
        (DeployOutcome.success p, [Shape.web, Shape.gen, Shape.dep])) ∧
    ((wb.hasErrors = true ∨ wb.payload = GqlPayload.absent ∨
        wb.payload = GqlPayload.nullValue) →
      (gb.hasErrors = true ∨ gb.payload = GqlPayload.absent) → db.hasErrors = false →
      db.payload = GqlPayload.nullValue →
      deployPodMultiAttempt w =
        (DeployOutcome.nullResult, [Shape.web, Shape.gen, Shape.dep])) ∧
    ((wb.hasErrors = true ∨ wb.payload = GqlPayload.absent ∨
        wb.payload = GqlPayload.nullValue) →
      (gb.hasErrors = true ∨ gb.payload = GqlPayload.absent) →
      (db.hasErrors = true ∨ db.payload = GqlPayload.absent) → ob.hasErrors = false →
      ∀ p, ob.payload = GqlPayload.pod p →
      deployPodMultiAttempt w =
        (DeployOutcome.success p, [Shape.web, Shape.gen, Shape.dep, Shape.od])) ∧
    ((wb.hasErrors = true ∨ wb.payload = GqlPayload.absent ∨
        wb.payload = GqlPayload.nullValue) →
      (gb.hasErrors = true ∨ gb.payload = GqlPayload.absent) →
      (db.hasErrors = true ∨ db.payload = GqlPayload.absent) → ob.hasErrors = false →
      ob.payload = GqlPayload.nullValue →
      deployPodMultiAttempt w =
        (DeployOutcome.nullResult, [Shape.web, Shape.gen, Shape.dep, Shape.od])) := by
  refine ⟨?_, ?_, ?_, ?_, ?_, ?_, ?_⟩
  · intro he p hp
    unfold deployPodMultiAttempt
    rw [hw, webFormat_pod he hp]
  · intro hwf he p hp
    unfold deployPodMultiAttempt
    rw [hw, webFormat_noPod hwf, hg, gqlAttempt_pod he hp]
  · intro hwf he hp
    unfold deployPodMultiAttempt
    rw [hw, webFormat_noPod hwf, hg, gqlAttempt_nullReturn he hp]
  · intro hwf hgf he p hp
    unfold deployPodMultiAttempt
    rw [hw, webFormat_noPod hwf, hg, gqlAttempt_noPod hgf, hd, gqlAttempt_pod he hp]
  · intro hwf hgf he hp
    unfold deployPodMultiAttempt
    rw [hw, webFormat_noPod hwf, hg, gqlAttempt_noPod hgf, hd, gqlAttempt_nullReturn he hp]
  · intro hwf hgf hdf he p hp
    unfold deployPodMultiAttempt
    rw [hw, webFormat_noPod hwf, hg, gqlAttempt_noPod hgf, hd, gqlAttempt_noPod hdf, ho,
      gqlAttempt_pod he hp]
  · intro hwf hgf hdf he hp
    unfold deployPodMultiAttempt
    rw [hw, webFormat_noPod hwf, hg, gqlAttempt_noPod hgf, hd, gqlAttempt_noPod hdf, ho,
      gqlAttempt_nullReturn he hp]

/-- Witness for the amended claim C7: the first candidate fails with a
remote error, the second succeeds and is returned, the last two are not
attempted. -/
theorem claim_C7_amended_witness :
    deployPodMultiAttempt
      ⟨⟨200, some ⟨true, GqlPayload.absent⟩⟩, ⟨200, some ⟨false, GqlPayload.pod "pod-b"⟩⟩,
        ⟨200, some ⟨true, GqlPayload.absent⟩⟩, ⟨200, some ⟨true, GqlPayload.absent⟩⟩⟩ =
      (DeployOutcome.success "pod-b", [Shape.web, Shape.gen]) :=
  (claim_C7_amended _ ⟨true, GqlPayload.absent⟩ ⟨false, GqlPayload.pod "pod-b"⟩
    ⟨true, GqlPayload.absent⟩ ⟨true, GqlPayload.absent⟩
    rfl rfl rfl rfl).2.1 (Or.inl rfl) rfl "pod-b" rfl

/-- Claim C8: if every candidate request shape returns a remote error, the
run ends in the aggregate-failure path — `print("All deployment attempts
failed")` followed by `sys.exit(1)` — after having tried all four shapes,
and no pod result is produced. -/
theorem claim_C8 (w : DeployWorld) (wb gb db ob : GqlDeployBody)
    (hw : w.web = ⟨200, some wb⟩) (hg : w.gen = ⟨200, some gb⟩)
    (hd : w.dep = ⟨200, some db⟩) (ho : w.od = ⟨200, some ob⟩)
    (he1 : wb.hasErrors = true) (he2 : gb.hasErrors = true)
    (he3 : db.hasErrors = true) (he4 : ob.hasErrors = true) :
    deployPodMultiAttempt w =
      (DeployOutcome.allFailedExit1, [Shape.web, Shape.gen, Shape.dep, Shape.od]) := by
  unfold deployPodMultiAttempt
  rw [hw, webFormat_noPod (Or.inl he1), hg, gqlAttempt_noPod (Or.inl he2), hd,
    gqlAttempt_noPod (Or.inl he3), ho, gqlAttempt_noPod (Or.inl he4)]

/-- Witness for claim C8: all four candidates answer with a remote error. -/
theorem claim_C8_witness :
    deployPodMultiAttempt
      ⟨⟨200, some ⟨true, GqlPayload.absent⟩⟩, ⟨200, some ⟨true, GqlPayload.absent⟩⟩,
        ⟨200, some ⟨true, GqlPayload.pod "ghost"⟩⟩, ⟨200, some ⟨true, GqlPayload.absent⟩⟩⟩ =
      (DeployOutcome.allFailedExit1, [Shape.web, Shape.gen, Shape.dep, Shape.od]) :=
  claim_C8 _ ⟨true, GqlPayload.absent⟩ ⟨true, GqlPayload.absent⟩
    ⟨true, GqlPayload.pod "ghost"⟩ ⟨true, GqlPayload.absent⟩
    rfl rfl rfl rfl rfl rfl rfl rfl

/-- Claim C9 counterexample: the claim states every response with a success
status and parseable body is treated as a valid credential, but the GraphQL
`verify_api_key` returns `False` for an HTTP-200, parseable body that has
no `errors` entry and no truthy `data.myself` (e.g. the body `{}`). -/
theorem claim_C9_counterexample :
    verifyApiKey ⟨200, some ⟨false, false⟩⟩ = false := by decide

/-- Claim C9 amended: the GraphQL `verify_api_key` accepts exactly the
responses with HTTP status 200 and a parseable body that has no `errors`
entry and a truthy `data.myself`; the REST `verify_api_key` accepts exactly
the responses with HTTP status 200, never reading the body. -/
theorem claim_C9_amended :
    (∀ r : HttpResp VerifyBody, verifyApiKey r = true ↔
      r.status = 200 ∧ ∃ b, r.body = some b ∧ b.hasErrors = false ∧ b.myselfTruthy = true) ∧
    (∀ r : HttpResp VerifyBody, restVerifyApiKey r = true ↔ r.status = 200) := by
  constructor
  · intro r
    unfold verifyApiKey
    by_cases h : r.status = 200
    · rw [if_neg (by simp [h])]
      cases hb : r.body with
      | none => simp [h]
      | some b =>
        cases b1 : b.hasErrors with
        | true => simp [h, b1]
        | false =>
          cases b2 : b.myselfTruthy with
          | true => simp [h, b1, b2]
          | false => simp [h, b1, b2]
    · rw [if_pos h]
      simp [h]
  · intro r
    unfold restVerifyApiKey
    by_cases h : r.status = 200
    · rw [if_neg (by simp [h])]
      simp [h]
    · rw [if_pos h]
      simp [h]

end OllamaRunpod
